import Mathlib

/-!
Verification of underworld3, `src/underworld3/cython/petsc_compat.h`

A shallow embedding of the PETSc compatibility shim.  Every function of the header
forwards its arguments to the PETSc library.  The library is external, so it is
modelled as an arbitrary deterministic stub `PetscLib σ` over an arbitrary stub
state `σ`; a wrapper is run on a stub and yields its return value, the final stub
state and the ordered log of the library calls it made.

Conventions of the embedding

* `PetscInt` and `PetscErrorCode` are the C type `int` of a default PETSc build; no
  arithmetic is performed on them by the header, so they are modelled by `Int`.
* Opaque PETSc handles (`DM`, `DMLabel`, `PetscDS`, `PetscWeakForm`, `Vec`,
  `PetscViewer`), callback pointers and `void *` are addresses, modelled by `Nat`,
  with `NULL = 0`.
* `const char x[]` is a `String`, `const PetscInt *x` is a `List PetscInt`.
* A library function with an output pointer may or may not store through it: the
  stub answers `some v` when it stores `v` and `none` when it leaves the slot alone.
  The local variable behind the pointer is declared without initialiser in the C
  code; its indeterminate initial content is an explicit parameter (`label0`,
  `bd0`, `wf0`) of the embedded function.
* `PetscDSGetBoundary` is always called with `&wf` as its only non-`NULL` output
  pointer; the eleven trailing `NULL` output pointers are constant at every call
  site and are not represented.
-/

namespace PetscCompat

/-! ## Types of `petsc.h` used by the header -/

/-- Modelled from the spec: the index type `PetscInt` of `petsc.h` (not part of the
sources), the C type `int` of a default PETSc build. -/
abbrev PetscInt := Int
/-- Modelled from the spec: the status type `PetscErrorCode` of `petsc.h` (not part of the
sources), the C type `int`; the status the caller "expects in return". -/
abbrev PetscErrorCode := Int
/-- Modelled from the spec: the condition kind (essential, natural, ...) of `petsc.h`,
a C enumeration. -/
abbrev DMBoundaryConditionType := Int
/-- Modelled from the spec: the opaque discretization handle of `petsc.h`. -/
abbrev DM := Nat
/-- Modelled from the spec: the opaque handle of a labeled mesh region of `petsc.h`. -/
abbrev DMLabel := Nat
/-- Modelled from the spec: the opaque handle of a discrete system of `petsc.h`. -/
abbrev PetscDS := Nat
/-- Modelled from the spec: the opaque weak-form handle of `petsc.h`. -/
abbrev PetscWeakForm := Nat
/-- Modelled from the spec: the opaque vector handle of `petsc.h`. -/
abbrev Vec := Nat
/-- Modelled from the spec: the opaque viewer handle of `petsc.h`; `NULL` selects the
default output stream. -/
abbrev PetscViewer := Nat
/-- A callback pointer `void (*)(...)`. -/
abbrev FnPtr := Nat
/-- An untyped pointer `void *`. -/
abbrev Ptr := Nat

/-- The null pointer. -/
abbrev NULL : Nat := 0

/-- Modelled from the spec: the constant `PETSC_SUCCESS` of `petsc.h`, the status of a
PETSc routine that succeeded. -/
abbrev PETSC_SUCCESS : PetscErrorCode := 0

/-! ## Library calls and the stubbed library -/

/-- One call into the PETSc library, with the arguments it received
(output pointers excluded). -/
inductive Call where
  | DMGetLabel (dm : DM) (name : String)
  | DMAddBoundary (dm : DM) (type : DMBoundaryConditionType) (name : String)
      (label : DMLabel) (Nv : PetscInt) (values : List PetscInt) (field : PetscInt)
      (Nc : PetscInt) (comps : List PetscInt) (bcFunc bcFunc_t : FnPtr) (ctx : Ptr)
  | DMSetAuxiliaryVec (dm : DM) (label : DMLabel) (value part : PetscInt) (aux : Vec)
  | PetscDSGetBoundary (ds : PetscDS) (bd : PetscInt)
  | PetscDSGetWeakForm (ds : PetscDS)
  | PetscWeakFormSetIndexBdResidual (wf : PetscWeakForm) (label : DMLabel)
      (val f part : PetscInt) (i0 : PetscInt) (f0 : FnPtr) (i1 : PetscInt) (f1 : FnPtr)
  | PetscWeakFormSetIndexBdJacobian (wf : PetscWeakForm) (label : DMLabel)
      (val f g part : PetscInt) (i0 : PetscInt) (g0 : FnPtr) (i1 : PetscInt) (g1 : FnPtr)
      (i2 : PetscInt) (g2 : FnPtr) (i3 : PetscInt) (g3 : FnPtr)
  | PetscWeakFormSetIndexBdJacobianPreconditioner (wf : PetscWeakForm) (label : DMLabel)
      (val f g part : PetscInt) (i0 : PetscInt) (g0 : FnPtr) (i1 : PetscInt) (g1 : FnPtr)
      (i2 : PetscInt) (g2 : FnPtr) (i3 : PetscInt) (g3 : FnPtr)
  | PetscWeakFormView (wf : PetscWeakForm) (viewer : PetscViewer)
  deriving DecidableEq

/-- Is the call a residual install? -/
def Call.isResidualInstall : Call → Bool
  | .PetscWeakFormSetIndexBdResidual .. => true
  | _ => false

/-- Is the call a Jacobian install? -/
def Call.isJacobianInstall : Call → Bool
  | .PetscWeakFormSetIndexBdJacobian .. => true
  | _ => false

/-- Is the call a Jacobian-preconditioner install? -/
def Call.isPreconditionerInstall : Call → Bool
  | .PetscWeakFormSetIndexBdJacobianPreconditioner .. => true
  | _ => false

/-- Is the call one of the three weak-form mutators? -/
def Call.isInstall (c : Call) : Bool :=
  c.isResidualInstall || c.isJacobianInstall || c.isPreconditionerInstall

/-- What a stubbed library routine without output pointer answers. -/
structure Ret (σ : Type) where
  status : PetscErrorCode
  state : σ

/-- What a stubbed library routine with one output pointer answers: `out` is the
value stored through the pointer, `none` when nothing is stored. -/
structure RetOut (σ α : Type) where
  status : PetscErrorCode
  out : Option α
  state : σ

/-- A stubbed PETSc library over the stub state `σ`: one field for each PETSc routine
the header calls, taking the stub state and the arguments of the call. -/
structure PetscLib (σ : Type) where
  DMGetLabel : σ → DM → String → RetOut σ DMLabel
  DMAddBoundary : σ → DM → DMBoundaryConditionType → String → DMLabel → PetscInt →
    List PetscInt → PetscInt → PetscInt → List PetscInt → FnPtr → FnPtr → Ptr →
    RetOut σ PetscInt
  DMSetAuxiliaryVec : σ → DM → DMLabel → PetscInt → PetscInt → Vec → Ret σ
  PetscDSGetBoundary : σ → PetscDS → PetscInt → RetOut σ PetscWeakForm
  PetscDSGetWeakForm : σ → PetscDS → RetOut σ PetscWeakForm
  PetscWeakFormSetIndexBdResidual : σ → PetscWeakForm → DMLabel → PetscInt → PetscInt →
    PetscInt → PetscInt → FnPtr → PetscInt → FnPtr → Ret σ
  PetscWeakFormSetIndexBdJacobian : σ → PetscWeakForm → DMLabel → PetscInt → PetscInt →
    PetscInt → PetscInt → PetscInt → FnPtr → PetscInt → FnPtr → PetscInt → FnPtr →
    PetscInt → FnPtr → Ret σ
  PetscWeakFormSetIndexBdJacobianPreconditioner : σ → PetscWeakForm → DMLabel →
    PetscInt → PetscInt → PetscInt → PetscInt → PetscInt → FnPtr → PetscInt → FnPtr →
    PetscInt → FnPtr → PetscInt → FnPtr → Ret σ
  PetscWeakFormView : σ → PetscWeakForm → PetscViewer → Ret σ

/-! ## Running a wrapper on a stub -/

/-- A logged library call together with the status the stub answered. -/
structure LogEntry where
  call : Call
  status : PetscErrorCode
  deriving DecidableEq

/-- The stub state and the log of the calls made so far, oldest first. -/
structure World (σ : Type) where
  lib : σ
  log : List LogEntry

/-- A finished invocation of a wrapper: its return value and the final world. -/
structure Run (σ : Type) where
  ret : PetscErrorCode
  world : World σ

/-- The log of a finished invocation. -/
def Run.log {σ : Type} (r : Run σ) : List LogEntry := r.world.log

/-- The library calls of a finished invocation, in the order they were made. -/
def Run.calls {σ : Type} (r : Run σ) : List Call := r.world.log.map LogEntry.call

/-- The stub state a finished invocation leaves behind. -/
def Run.state {σ : Type} (r : Run σ) : σ := r.world.lib

/-- The outcome of one library call: its status and the world after it. -/
structure Called (σ : Type) where
  status : PetscErrorCode
  world : World σ

/-- The outcome of one library call with an output pointer: `slot` is the content
of the pointed-to variable after the call. -/
structure CalledOut (σ α : Type) extends Called σ where
  slot : α

section calls
variable {σ : Type}

/-- Record a call without output pointer. -/
def record (c : Call) (r : Ret σ) (w : World σ) : Called σ :=
  { status := r.status, world := ⟨r.state, w.log ++ [⟨c, r.status⟩]⟩ }

/-- Record a call with an output pointer whose target currently holds `cur`. -/
def recordOut {α : Type} (c : Call) (r : RetOut σ α) (cur : α) (w : World σ) :
    CalledOut σ α :=
  { status := r.status, world := ⟨r.state, w.log ++ [⟨c, r.status⟩]⟩,
    slot := r.out.getD cur }

/-- The call `DMGetLabel(dm, name, &label)`. -/
def call_DMGetLabel (L : PetscLib σ) (dm : DM) (name : String) (label : DMLabel)
    (w : World σ) : CalledOut σ DMLabel :=
  recordOut (.DMGetLabel dm name) (L.DMGetLabel w.lib dm name) label w

/-- The call `DMAddBoundary(dm, type, name, label, Nv, values, field, Nc, comps,
bcFunc, bcFunc_t, ctx, &bd)`. -/
def call_DMAddBoundary (L : PetscLib σ) (dm : DM) (type : DMBoundaryConditionType)
    (name : String) (label : DMLabel) (Nv : PetscInt) (values : List PetscInt)
    (field Nc : PetscInt) (comps : List PetscInt) (bcFunc bcFunc_t : FnPtr) (ctx : Ptr)
    (bd : PetscInt) (w : World σ) : CalledOut σ PetscInt :=
  recordOut (.DMAddBoundary dm type name label Nv values field Nc comps bcFunc bcFunc_t ctx)
    (L.DMAddBoundary w.lib dm type name label Nv values field Nc comps bcFunc bcFunc_t ctx)
    bd w

/-- The call `DMSetAuxiliaryVec(dm, label, value, part, aux)`. -/
def call_DMSetAuxiliaryVec (L : PetscLib σ) (dm : DM) (label : DMLabel)
    (value part : PetscInt) (aux : Vec) (w : World σ) : Called σ :=
  record (.DMSetAuxiliaryVec dm label value part aux)
    (L.DMSetAuxiliaryVec w.lib dm label value part aux) w

/-- The call `PetscDSGetBoundary(ds, bd, &wf, NULL, ..., NULL)`. -/
def call_PetscDSGetBoundary (L : PetscLib σ) (ds : PetscDS) (bd : PetscInt)
    (wf : PetscWeakForm) (w : World σ) : CalledOut σ PetscWeakForm :=
  recordOut (.PetscDSGetBoundary ds bd) (L.PetscDSGetBoundary w.lib ds bd) wf w

/-- The call `PetscDSGetWeakForm(ds, &wf)`. -/
def call_PetscDSGetWeakForm (L : PetscLib σ) (ds : PetscDS) (wf : PetscWeakForm)
    (w : World σ) : CalledOut σ PetscWeakForm :=
  recordOut (.PetscDSGetWeakForm ds) (L.PetscDSGetWeakForm w.lib ds) wf w

/-- The call `PetscWeakFormSetIndexBdResidual(wf, label, val, f, part, i0, f0, i1, f1)`. -/
def call_PetscWeakFormSetIndexBdResidual (L : PetscLib σ) (wf : PetscWeakForm)
    (label : DMLabel) (val f part : PetscInt) (i0 : PetscInt) (f0 : FnPtr)
    (i1 : PetscInt) (f1 : FnPtr) (w : World σ) : Called σ :=
  record (.PetscWeakFormSetIndexBdResidual wf label val f part i0 f0 i1 f1)
    (L.PetscWeakFormSetIndexBdResidual w.lib wf label val f part i0 f0 i1 f1) w

/-- The call `PetscWeakFormSetIndexBdJacobian(wf, label, val, f, g, part, i0, g0,
i1, g1, i2, g2, i3, g3)`. -/
def call_PetscWeakFormSetIndexBdJacobian (L : PetscLib σ) (wf : PetscWeakForm)
    (label : DMLabel) (val f g part : PetscInt) (i0 : PetscInt) (g0 : FnPtr)
    (i1 : PetscInt) (g1 : FnPtr) (i2 : PetscInt) (g2 : FnPtr) (i3 : PetscInt) (g3 : FnPtr)
    (w : World σ) : Called σ :=
  record (.PetscWeakFormSetIndexBdJacobian wf label val f g part i0 g0 i1 g1 i2 g2 i3 g3)
    (L.PetscWeakFormSetIndexBdJacobian w.lib wf label val f g part i0 g0 i1 g1 i2 g2 i3 g3) w

/-- The call `PetscWeakFormSetIndexBdJacobianPreconditioner(wf, label, val, f, g,
part, i0, g0, i1, g1, i2, g2, i3, g3)`. -/
def call_PetscWeakFormSetIndexBdJacobianPreconditioner (L : PetscLib σ)
    (wf : PetscWeakForm) (label : DMLabel) (val f g part : PetscInt) (i0 : PetscInt)
    (g0 : FnPtr) (i1 : PetscInt) (g1 : FnPtr) (i2 : PetscInt) (g2 : FnPtr)
    (i3 : PetscInt) (g3 : FnPtr) (w : World σ) : Called σ :=
  record
    (.PetscWeakFormSetIndexBdJacobianPreconditioner wf label val f g part i0 g0 i1 g1 i2 g2
      i3 g3)
    (L.PetscWeakFormSetIndexBdJacobianPreconditioner w.lib wf label val f g part i0 g0 i1 g1
      i2 g2 i3 g3) w

/-- The call `PetscWeakFormView(wf, viewer)`. -/
def call_PetscWeakFormView (L : PetscLib σ) (wf : PetscWeakForm) (viewer : PetscViewer)
    (w : World σ) : Called σ :=
  record (.PetscWeakFormView wf viewer) (L.PetscWeakFormView w.lib wf viewer) w

/-- Modelled from the spec: the `PetscCall` macro of `petsc.h`, which is not part of
the sources.  `PetscCall(f(args))` evaluates the call; when its status differs from
`PETSC_SUCCESS` the enclosing function returns at once with that status (the error
handler the macro goes through hands the status back unchanged), otherwise control
falls through to the statements that follow (`rest`). -/
def PetscCall (c : Called σ) (rest : World σ → Run σ) : Run σ :=
  if c.status ≠ PETSC_SUCCESS then ⟨c.status, c.world⟩ else rest c.world

/-! ## The functions of `petsc_compat.h` -/

/-- The function `PetscDSAddBoundary_UW` (lines 5-27).  `label0` and `bd0` are the indeterminate
initial contents of the locals `label` and `bd`. -/
def PetscDSAddBoundary_UW (L : PetscLib σ) (label0 : DMLabel) (bd0 : PetscInt)
    (dm : DM) (type : DMBoundaryConditionType) (name labelname : String)
    (field num_const_components : PetscInt) (components : List PetscInt)
    (bcFunc bcFunc_t : FnPtr) (ids : PetscInt) (id_values : List PetscInt) (ctx : Ptr)
    (s : σ) : Run σ :=
  let w : World σ := ⟨s, []⟩
  -- DMLabel label;
  -- DMGetLabel(dm, labelname, &label);
  let r1 := call_DMGetLabel L dm labelname label0 w
  let label := r1.slot
  -- PetscInt bd;
  -- DMAddBoundary(dm, type, name, label, ids, id_values, field,
  --               num_const_components, components, bcFunc, bcFunc_t, ctx, &bd);
  let r2 := call_DMAddBoundary L dm type name label ids id_values field
    num_const_components components bcFunc bcFunc_t ctx bd0 r1.world
  let bd := r2.slot
  -- return bd;
  ⟨bd, r2.world⟩

/-- The function `DMSetAuxiliaryVec_UW` (lines 29-32). -/
def DMSetAuxiliaryVec_UW (L : PetscLib σ) (dm : DM) (label : DMLabel)
    (value part : PetscInt) (aux : Vec) (s : σ) : Run σ :=
  let w : World σ := ⟨s, []⟩
  -- return DMSetAuxiliaryVec(dm, label, value, part, aux);
  let r := call_DMSetAuxiliaryVec L dm label value part aux w
  ⟨r.status, r.world⟩

/-- The function `UW_PetscDSSetBdTerms` (lines 39-57).  `wf0` is the indeterminate initial
content of the local `wf`. -/
def UW_PetscDSSetBdTerms (L : PetscLib σ) (wf0 : PetscWeakForm)
    (ds : PetscDS) (label : DMLabel) (label_val bd f g part : PetscInt)
    (idx0 : PetscInt) (bcFunc_f0 : FnPtr) (idx1 : PetscInt) (bcFunc_f1 : FnPtr)
    (idxg0 : PetscInt) (bcFunc_g0 : FnPtr) (idxg1 : PetscInt) (bcFunc_g1 : FnPtr)
    (idxg2 : PetscInt) (bcFunc_g2 : FnPtr) (idxg3 : PetscInt) (bcFunc_g3 : FnPtr)
    (s : σ) : Run σ :=
  let w : World σ := ⟨s, []⟩
  -- PetscWeakForm wf;
  -- PetscCall(PetscDSGetBoundary(ds, bd, &wf, NULL, ..., NULL));
  let r := call_PetscDSGetBoundary L ds bd wf0 w
  let wf := r.slot
  PetscCall r.toCalled fun w =>
  -- PetscCall(PetscWeakFormSetIndexBdResidual(wf, label, label_val, f, part,
  --           idx0, bcFunc_f0, idx1, bcFunc_f1));
  PetscCall (call_PetscWeakFormSetIndexBdResidual L wf label label_val f part
    idx0 bcFunc_f0 idx1 bcFunc_f1 w) fun w =>
  -- PetscCall(PetscWeakFormSetIndexBdJacobian(wf, label, label_val, f, g, part,
  --           idxg0, bcFunc_g0, idxg1, bcFunc_g1, idxg2, bcFunc_g2, idxg3, bcFunc_g3));
  PetscCall (call_PetscWeakFormSetIndexBdJacobian L wf label label_val f g part
    idxg0 bcFunc_g0 idxg1 bcFunc_g1 idxg2 bcFunc_g2 idxg3 bcFunc_g3 w) fun w =>
  -- PetscCall(PetscWeakFormSetIndexBdJacobianPreconditioner(wf, label, label_val, f, g,
  --           part, idxg0, bcFunc_g0, idxg1, bcFunc_g1, idxg2, bcFunc_g2, idxg3, bcFunc_g3));
  PetscCall (call_PetscWeakFormSetIndexBdJacobianPreconditioner L wf label label_val f g
    part idxg0 bcFunc_g0 idxg1 bcFunc_g1 idxg2 bcFunc_g2 idxg3 bcFunc_g3 w) fun w =>
  -- return 1;
  ⟨1, w⟩

/-- The function `UW_PetscDSSetBdResidual` (lines 59-70).  The parameters `idx1` and `bcFunc_f1`
are received and not used: the second residual slot is installed as `0, NULL`. -/
def UW_PetscDSSetBdResidual (L : PetscLib σ) (wf0 : PetscWeakForm)
    (ds : PetscDS) (label : DMLabel) (label_val bd f part : PetscInt)
    (idx0 : PetscInt) (bcFunc_f0 : FnPtr) (_idx1 : PetscInt) (_bcFunc_f1 : FnPtr)
    (s : σ) : Run σ :=
  let w : World σ := ⟨s, []⟩
  -- PetscWeakForm wf;
  -- PetscCall(PetscDSGetBoundary(ds, bd, &wf, NULL, ..., NULL));
  let r := call_PetscDSGetBoundary L ds bd wf0 w
  let wf := r.slot
  PetscCall r.toCalled fun w =>
  -- PetscCall(PetscWeakFormSetIndexBdResidual(wf, label, label_val, f, part,
  --           idx0, bcFunc_f0, 0, NULL));
  PetscCall (call_PetscWeakFormSetIndexBdResidual L wf label label_val f part
    idx0 bcFunc_f0 0 NULL w) fun w =>
  -- return 1;
  ⟨1, w⟩

/-- The function `UW_PetscDSSetBdJacobian` (lines 72-85). -/
def UW_PetscDSSetBdJacobian (L : PetscLib σ) (wf0 : PetscWeakForm)
    (ds : PetscDS) (label : DMLabel) (label_val bd f g part : PetscInt)
    (idx0 : PetscInt) (bcFunc_g0 : FnPtr) (idx1 : PetscInt) (bcFunc_g1 : FnPtr)
    (idx2 : PetscInt) (bcFunc_g2 : FnPtr) (idx3 : PetscInt) (bcFunc_g3 : FnPtr)
    (s : σ) : Run σ :=
  let w : World σ := ⟨s, []⟩
  -- PetscWeakForm wf;
  -- PetscCall(PetscDSGetBoundary(ds, bd, &wf, NULL, ..., NULL));
  let r := call_PetscDSGetBoundary L ds bd wf0 w
  let wf := r.slot
  PetscCall r.toCalled fun w =>
  -- PetscCall(PetscWeakFormSetIndexBdJacobian(wf, label, label_val, f, g, part,
  --           idx0, bcFunc_g0, idx1, bcFunc_g1, idx2, bcFunc_g2, idx3, bcFunc_g3));
  PetscCall (call_PetscWeakFormSetIndexBdJacobian L wf label label_val f g part
    idx0 bcFunc_g0 idx1 bcFunc_g1 idx2 bcFunc_g2 idx3 bcFunc_g3 w) fun w =>
  -- return 1;
  ⟨1, w⟩

/-- The function `UW_PetscDSSetBdJacobianPreconditioner` (lines 87-100). -/
def UW_PetscDSSetBdJacobianPreconditioner (L : PetscLib σ) (wf0 : PetscWeakForm)
    (ds : PetscDS) (label : DMLabel) (label_val bd f g part : PetscInt)
    (idx0 : PetscInt) (bcFunc_g0 : FnPtr) (idx1 : PetscInt) (bcFunc_g1 : FnPtr)
    (idx2 : PetscInt) (bcFunc_g2 : FnPtr) (idx3 : PetscInt) (bcFunc_g3 : FnPtr)
    (s : σ) : Run σ :=
  let w : World σ := ⟨s, []⟩
  -- PetscWeakForm wf;
  -- PetscCall(PetscDSGetBoundary(ds, bd, &wf, NULL, ..., NULL));
  let r := call_PetscDSGetBoundary L ds bd wf0 w
  let wf := r.slot
  PetscCall r.toCalled fun w =>
  -- PetscCall(PetscWeakFormSetIndexBdJacobianPreconditioner(wf, label, label_val, f, g,
  --           part, idx0, bcFunc_g0, idx1, bcFunc_g1, idx2, bcFunc_g2, idx3, bcFunc_g3));
  PetscCall (call_PetscWeakFormSetIndexBdJacobianPreconditioner L wf label label_val f g
    part idx0 bcFunc_g0 idx1 bcFunc_g1 idx2 bcFunc_g2 idx3 bcFunc_g3 w) fun w =>
  -- return 1;
  ⟨1, w⟩

/-- The function `UW_PetscDSViewWF` (lines 102-111). -/
def UW_PetscDSViewWF (L : PetscLib σ) (wf0 : PetscWeakForm) (ds : PetscDS) (s : σ) :
    Run σ :=
  let w : World σ := ⟨s, []⟩
  -- PetscWeakForm wf;
  -- PetscCall(PetscDSGetWeakForm(ds, &wf));
  let r := call_PetscDSGetWeakForm L ds wf0 w
  let wf := r.slot
  PetscCall r.toCalled fun w =>
  -- PetscCall(PetscWeakFormView(wf, NULL));
  PetscCall (call_PetscWeakFormView L wf NULL w) fun w =>
  -- return 1;
  ⟨1, w⟩

/-- The function `UW_PetscDSViewBdWF` (lines 113-122). -/
def UW_PetscDSViewBdWF (L : PetscLib σ) (wf0 : PetscWeakForm) (ds : PetscDS)
    (bd : PetscInt) (s : σ) : Run σ :=
  let w : World σ := ⟨s, []⟩
  -- PetscWeakForm wf;
  -- PetscCall(PetscDSGetBoundary(ds, bd, &wf, NULL, ..., NULL));
  let r := call_PetscDSGetBoundary L ds bd wf0 w
  let wf := r.slot
  PetscCall r.toCalled fun w =>
  -- PetscCall(PetscWeakFormView(wf, NULL));
  PetscCall (call_PetscWeakFormView L wf NULL w) fun w =>
  -- return 1;
  ⟨1, w⟩

/-- The specification of `DMSetAuxiliaryVec_UW` in the words of the spec, "pure
forwarding, no added behavior": the observation of the library routine
`DMSetAuxiliaryVec` called directly on `(dm, label, value, part, aux)`, that is its
status as result, its final state, and itself as the only call. -/
def DMSetAuxiliaryVec_pureForwarding (L : PetscLib σ) (dm : DM) (label : DMLabel)
    (value part : PetscInt) (aux : Vec) (s : σ) : Run σ :=
  { ret := (L.DMSetAuxiliaryVec s dm label value part aux).status,
    world :=
      { lib := (L.DMSetAuxiliaryVec s dm label value part aux).state,
        log := [⟨Call.DMSetAuxiliaryVec dm label value part aux,
          (L.DMSetAuxiliaryVec s dm label value part aux).status⟩] } }

end calls

/-! ## Concrete stubs -/

/-- A stateful stub whose state counts the calls made so far.  The call made when the
counter equals `failAt` answers the status `code`, every other call answers
`PETSC_SUCCESS`.  The label lookup stores label `7`, the boundary registration stores
boundary index `bdOut`, the weak-form fetches store the handle `42`. -/
def stub (failAt : Nat) (code : PetscErrorCode) (bdOut : PetscInt) : PetscLib Nat where
  DMGetLabel := fun s _ _ => ⟨if s = failAt then code else 0, some 7, s + 1⟩
  DMAddBoundary := fun s _ _ _ _ _ _ _ _ _ _ _ _ =>
    ⟨if s = failAt then code else 0, some bdOut, s + 1⟩
  DMSetAuxiliaryVec := fun s _ _ _ _ _ => ⟨if s = failAt then code else 0, s + 1⟩
  PetscDSGetBoundary := fun s _ _ => ⟨if s = failAt then code else 0, some 42, s + 1⟩
  PetscDSGetWeakForm := fun s _ => ⟨if s = failAt then code else 0, some 42, s + 1⟩
  PetscWeakFormSetIndexBdResidual := fun s _ _ _ _ _ _ _ _ _ =>
    ⟨if s = failAt then code else 0, s + 1⟩
  PetscWeakFormSetIndexBdJacobian := fun s _ _ _ _ _ _ _ _ _ _ _ _ _ _ =>
    ⟨if s = failAt then code else 0, s + 1⟩
  PetscWeakFormSetIndexBdJacobianPreconditioner := fun s _ _ _ _ _ _ _ _ _ _ _ _ _ _ =>
    ⟨if s = failAt then code else 0, s + 1⟩
  PetscWeakFormView := fun s _ _ => ⟨if s = failAt then code else 0, s + 1⟩

/-- A stub all of whose calls succeed (no call is ever the 99th). -/
def stubOk : PetscLib Nat := stub 99 0 3

/-! ## Theorems -/

section theorems
variable {σ : Type}

/-! ### Helper lemmas on the `PetscCall` chains -/

/-- The shape every run of a `PetscCall` chain has: the log is a run of successful
calls followed by one last call; when the last call failed the return value is its
status, otherwise it is the literal `1`. -/
def Chain (r : Run σ) : Prop :=
  ∃ (l : List LogEntry) (last : LogEntry), r.log = l ++ [last] ∧
    (∀ e ∈ l, e.status = PETSC_SUCCESS) ∧
    (last.status ≠ PETSC_SUCCESS → r.ret = last.status) ∧
    (last.status = PETSC_SUCCESS → r.ret = 1)

theorem chain_UW_PetscDSSetBdTerms (L : PetscLib σ) (wf0 : PetscWeakForm)
    (ds : PetscDS) (label : DMLabel) (label_val bd f g part : PetscInt)
    (idx0 : PetscInt) (f0 : FnPtr) (idx1 : PetscInt) (f1 : FnPtr)
    (idxg0 : PetscInt) (g0 : FnPtr) (idxg1 : PetscInt) (g1 : FnPtr)
    (idxg2 : PetscInt) (g2 : FnPtr) (idxg3 : PetscInt) (g3 : FnPtr) (s : σ) :
    Chain (UW_PetscDSSetBdTerms L wf0 ds label label_val bd f g part idx0 f0 idx1 f1
      idxg0 g0 idxg1 g1 idxg2 g2 idxg3 g3 s) := by
  unfold Chain UW_PetscDSSetBdTerms PetscCall
  simp only [call_PetscDSGetBoundary, call_PetscWeakFormSetIndexBdResidual,
    call_PetscWeakFormSetIndexBdJacobian, call_PetscWeakFormSetIndexBdJacobianPreconditioner,
    record, recordOut, Run.log]
  split_ifs with h1 h2 h3 h4
  · exact ⟨[], _, rfl, by simp, fun _ => rfl, fun h => absurd h h1⟩
  · exact ⟨[_], _, rfl, by simpa using not_not.mp h1, fun _ => rfl, fun h => absurd h h2⟩
  · exact ⟨[_, _], _, rfl, by simpa using ⟨not_not.mp h1, not_not.mp h2⟩, fun _ => rfl,
      fun h => absurd h h3⟩
  · exact ⟨[_, _, _], _, rfl, by simpa using ⟨not_not.mp h1, not_not.mp h2, not_not.mp h3⟩,
      fun _ => rfl, fun h => absurd h h4⟩
  · exact ⟨[_, _, _], _, rfl, by simpa using ⟨not_not.mp h1, not_not.mp h2, not_not.mp h3⟩,
      fun h => absurd (not_not.mp h4) h, fun _ => rfl⟩

theorem chain_UW_PetscDSSetBdResidual (L : PetscLib σ) (wf0 : PetscWeakForm)
    (ds : PetscDS) (label : DMLabel) (label_val bd f part : PetscInt)
    (idx0 : PetscInt) (f0 : FnPtr) (idx1 : PetscInt) (f1 : FnPtr) (s : σ) :
    Chain (UW_PetscDSSetBdResidual L wf0 ds label label_val bd f part idx0 f0 idx1 f1 s) := by
  unfold Chain UW_PetscDSSetBdResidual PetscCall
  simp only [call_PetscDSGetBoundary, call_PetscWeakFormSetIndexBdResidual, record,
    recordOut, Run.log]
  split_ifs with h1 h2
  · exact ⟨[], _, rfl, by simp, fun _ => rfl, fun h => absurd h h1⟩
  · exact ⟨[_], _, rfl, by simpa using not_not.mp h1, fun _ => rfl, fun h => absurd h h2⟩
  · exact ⟨[_], _, rfl, by simpa using not_not.mp h1, fun h => absurd (not_not.mp h2) h,
      fun _ => rfl⟩

theorem chain_UW_PetscDSSetBdJacobian (L : PetscLib σ) (wf0 : PetscWeakForm)
    (ds : PetscDS) (label : DMLabel) (label_val bd f g part : PetscInt)
    (idx0 : PetscInt) (g0 : FnPtr) (idx1 : PetscInt) (g1 : FnPtr)
    (idx2 : PetscInt) (g2 : FnPtr) (idx3 : PetscInt) (g3 : FnPtr) (s : σ) :
    Chain (UW_PetscDSSetBdJacobian L wf0 ds label label_val bd f g part idx0 g0 idx1 g1
      idx2 g2 idx3 g3 s) := by
  unfold Chain UW_PetscDSSetBdJacobian PetscCall
  simp only [call_PetscDSGetBoundary, call_PetscWeakFormSetIndexBdJacobian, record,
    recordOut, Run.log]
  split_ifs with h1 h2
  · exact ⟨[], _, rfl, by simp, fun _ => rfl, fun h => absurd h h1⟩
  · exact ⟨[_], _, rfl, by simpa using not_not.mp h1, fun _ => rfl, fun h => absurd h h2⟩
  · exact ⟨[_], _, rfl, by simpa using not_not.mp h1, fun h => absurd (not_not.mp h2) h,
      fun _ => rfl⟩

theorem chain_UW_PetscDSSetBdJacobianPreconditioner (L : PetscLib σ) (wf0 : PetscWeakForm)
    (ds : PetscDS) (label : DMLabel) (label_val bd f g part : PetscInt)
    (idx0 : PetscInt) (g0 : FnPtr) (idx1 : PetscInt) (g1 : FnPtr)
    (idx2 : PetscInt) (g2 : FnPtr) (idx3 : PetscInt) (g3 : FnPtr) (s : σ) :
    Chain (UW_PetscDSSetBdJacobianPreconditioner L wf0 ds label label_val bd f g part
      idx0 g0 idx1 g1 idx2 g2 idx3 g3 s) := by
  unfold Chain UW_PetscDSSetBdJacobianPreconditioner PetscCall
  simp only [call_PetscDSGetBoundary, call_PetscWeakFormSetIndexBdJacobianPreconditioner,
    record, recordOut, Run.log]
  split_ifs with h1 h2
  · exact ⟨[], _, rfl, by simp, fun _ => rfl, fun h => absurd h h1⟩
  · exact ⟨[_], _, rfl, by simpa using not_not.mp h1, fun _ => rfl, fun h => absurd h h2⟩
  · exact ⟨[_], _, rfl, by simpa using not_not.mp h1, fun h => absurd (not_not.mp h2) h,
      fun _ => rfl⟩

theorem chain_UW_PetscDSViewWF (L : PetscLib σ) (wf0 : PetscWeakForm) (ds : PetscDS)
    (s : σ) : Chain (UW_PetscDSViewWF L wf0 ds s) := by
  unfold Chain UW_PetscDSViewWF PetscCall
  simp only [call_PetscDSGetWeakForm, call_PetscWeakFormView, record, recordOut, Run.log]
  split_ifs with h1 h2
  · exact ⟨[], _, rfl, by simp, fun _ => rfl, fun h => absurd h h1⟩
  · exact ⟨[_], _, rfl, by simpa using not_not.mp h1, fun _ => rfl, fun h => absurd h h2⟩
  · exact ⟨[_], _, rfl, by simpa using not_not.mp h1, fun h => absurd (not_not.mp h2) h,
      fun _ => rfl⟩

theorem chain_UW_PetscDSViewBdWF (L : PetscLib σ) (wf0 : PetscWeakForm) (ds : PetscDS)
    (bd : PetscInt) (s : σ) : Chain (UW_PetscDSViewBdWF L wf0 ds bd s) := by
  unfold Chain UW_PetscDSViewBdWF PetscCall
  simp only [call_PetscDSGetBoundary, call_PetscWeakFormView, record, recordOut, Run.log]
  split_ifs with h1 h2
  · exact ⟨[], _, rfl, by simp, fun _ => rfl, fun h => absurd h h1⟩
  · exact ⟨[_], _, rfl, by simpa using not_not.mp h1, fun _ => rfl, fun h => absurd h h2⟩
  · exact ⟨[_], _, rfl, by simpa using not_not.mp h1, fun h => absurd (not_not.mp h2) h,
      fun _ => rfl⟩

/-- In a chain whose calls all succeeded the return value is the literal `1`. -/
theorem Chain.ret_of_success {r : Run σ} (hc : Chain r)
    (hok : ∀ e ∈ r.log, e.status = PETSC_SUCCESS) : r.ret = 1 := by
  obtain ⟨l, last, hlog, _, _, h1⟩ := hc
  exact h1 (hok last (by simp [hlog]))

/-- In a chain a call that failed determines the return value. -/
theorem Chain.ret_of_failure {r : Run σ} (hc : Chain r) (e : LogEntry) (he : e ∈ r.log)
    (hne : e.status ≠ PETSC_SUCCESS) : r.ret = e.status := by
  obtain ⟨l, last, hlog, hl, h0, _⟩ := hc
  rw [hlog] at he
  rcases List.mem_append.mp he with h | h
  · exact absurd (hl e h) hne
  · have : e = last := by simpa using h
    subst this
    exact h0 hne

/-- In a chain a call that failed is the last call made. -/
theorem Chain.failure_is_last {r : Run σ} (hc : Chain r) (i : Nat) (e : LogEntry)
    (hi : r.log[i]? = some e) (hne : e.status ≠ PETSC_SUCCESS) :
    r.log.length = i + 1 ∧ r.ret = e.status := by
  refine ⟨?_, hc.ret_of_failure e (List.getElem?_mem hi) hne⟩
  obtain ⟨l, last, hlog, hl, _, _⟩ := hc
  rw [hlog] at hi ⊢
  have hlt : i < (l ++ [last]).length := (List.getElem?_eq_some_iff.mp hi).1
  simp only [List.length_append, List.length_singleton] at hlt ⊢
  by_cases hil : i < l.length
  · rw [List.getElem?_append_left hil] at hi
    exact absurd (hl e (List.getElem?_mem hi)) hne
  · omega

/-! ### Boundary registration -/

/-- C1: on every input and every stub, `PetscDSAddBoundary_UW` makes exactly two library
calls, in this order: the label lookup `DMGetLabel(dm, labelname)`, then `DMAddBoundary`
with the caller's `dm`, `type`, `name`, the label handle the lookup produced, `ids` as the
label-value count, `id_values`, `field`, `num_const_components`, `components`, `bcFunc`,
`bcFunc_t` and `ctx`, each unchanged. -/
theorem PetscDSAddBoundary_UW_forwards (L : PetscLib σ) (label0 : DMLabel) (bd0 : PetscInt)
    (dm : DM) (type : DMBoundaryConditionType) (name labelname : String)
    (field num_const_components : PetscInt) (components : List PetscInt)
    (bcFunc bcFunc_t : FnPtr) (ids : PetscInt) (id_values : List PetscInt) (ctx : Ptr)
    (s : σ) (label : DMLabel)
    (hlabel : (L.DMGetLabel s dm labelname).out = some label) :
    (PetscDSAddBoundary_UW L label0 bd0 dm type name labelname field num_const_components
      components bcFunc bcFunc_t ids id_values ctx s).calls =
      [Call.DMGetLabel dm labelname,
       Call.DMAddBoundary dm type name label ids id_values field num_const_components
         components bcFunc bcFunc_t ctx] := by
  simp [PetscDSAddBoundary_UW, call_DMGetLabel, call_DMAddBoundary, recordOut, Run.calls,
    hlabel]

/-- Witness of C1: boundary "wall" on label "bottom", field 0, components `[0, 1]`,
callback `f` (address 4096), no time-derivative callback, one label value `[1]`. -/
theorem PetscDSAddBoundary_UW_forwards_witness :
    (stubOk.DMGetLabel 0 1 "bottom").out = some 7 ∧
    (PetscDSAddBoundary_UW stubOk 0 0 1 1 "wall" "bottom" 0 2 [0, 1] 4096 NULL 1 [1] 0 0).calls =
      [Call.DMGetLabel 1 "bottom",
       Call.DMAddBoundary 1 1 "wall" 7 1 [1] 0 2 [0, 1] 4096 NULL 0] :=
  ⟨rfl, PetscDSAddBoundary_UW_forwards stubOk 0 0 1 1 "wall" "bottom" 0 2 [0, 1] 4096 NULL 1
    [1] 0 0 7 rfl⟩

/-- C2: when the registration call `DMAddBoundary` made by `PetscDSAddBoundary_UW` stores
the boundary index `k` through its output pointer, the function returns `k`, whatever
statuses the label lookup and the registration call answer. -/
theorem PetscDSAddBoundary_UW_returns_index (L : PetscLib σ) (label0 : DMLabel)
    (bd0 : PetscInt) (dm : DM) (type : DMBoundaryConditionType) (name labelname : String)
    (field num_const_components : PetscInt) (components : List PetscInt)
    (bcFunc bcFunc_t : FnPtr) (ids : PetscInt) (id_values : List PetscInt) (ctx : Ptr)
    (s : σ) (k : PetscInt)
    (hk : (L.DMAddBoundary (L.DMGetLabel s dm labelname).state dm type name
        ((L.DMGetLabel s dm labelname).out.getD label0) ids id_values field
        num_const_components components bcFunc bcFunc_t ctx).out = some k) :
    (PetscDSAddBoundary_UW L label0 bd0 dm type name labelname field num_const_components
      components bcFunc bcFunc_t ids id_values ctx s).ret = k := by
  simp [PetscDSAddBoundary_UW, call_DMGetLabel, call_DMAddBoundary, recordOut, hk]

/-- Witness of C2: a registration that fails with status 77 and stores index 0 makes the
function return 0. -/
theorem PetscDSAddBoundary_UW_returns_index_witness :
    ((stub 1 77 0).DMAddBoundary 1 1 1 "wall" 7 1 [1] 0 2 [0, 1] 4096 NULL 0).status = 77 ∧
    ((stub 1 77 0).DMAddBoundary 1 1 1 "wall" 7 1 [1] 0 2 [0, 1] 4096 NULL 0).out = some 0 ∧
    (PetscDSAddBoundary_UW (stub 1 77 0) 0 0 1 1 "wall" "bottom" 0 2 [0, 1] 4096 NULL 1 [1] 0
      0).ret = 0 :=
  ⟨rfl, rfl, PetscDSAddBoundary_UW_returns_index (stub 1 77 0) 0 0 1 1 "wall" "bottom" 0 2
    [0, 1] 4096 NULL 1 [1] 0 0 0 rfl⟩

/-! ### Auxiliary vector -/

/-- C8: `DMSetAuxiliaryVec_UW` is the library call `DMSetAuxiliaryVec(dm, label, value,
part, aux)` and nothing else: it makes exactly that one call with the five arguments
unchanged and in order, returns exactly the status the call answered, and leaves the
library in the state the call left it in. -/
theorem DMSetAuxiliaryVec_UW_forwards (L : PetscLib σ) (dm : DM) (label : DMLabel)
    (value part : PetscInt) (aux : Vec) (s : σ) :
    DMSetAuxiliaryVec_UW L dm label value part aux s =
      DMSetAuxiliaryVec_pureForwarding L dm label value part aux s ∧
    (DMSetAuxiliaryVec_UW L dm label value part aux s).calls =
      [Call.DMSetAuxiliaryVec dm label value part aux] ∧
    (DMSetAuxiliaryVec_UW L dm label value part aux s).ret =
      (L.DMSetAuxiliaryVec s dm label value part aux).status ∧
    (DMSetAuxiliaryVec_UW L dm label value part aux s).state =
      (L.DMSetAuxiliaryVec s dm label value part aux).state := by
  simp [DMSetAuxiliaryVec_UW, DMSetAuxiliaryVec_pureForwarding, call_DMSetAuxiliaryVec,
    record, Run.calls, Run.state]

/-! ### Weak-form setters: the calls made -/

/-- C5: when every call it makes succeeds and the weak-form fetch yields `wf`,
`UW_PetscDSSetBdTerms` makes exactly four library calls, in this order: the fetch
`PetscDSGetBoundary(ds, bd)`, one residual install on `wf` with `(label, label_val, f,
part, idx0, f0, idx1, f1)`, one Jacobian install on `wf` with `(label, label_val, f, g,
part, idxg0, g0, idxg1, g1, idxg2, g2, idxg3, g3)`, and one Jacobian-preconditioner
install on `wf` with the arguments of the Jacobian install. -/
theorem UW_PetscDSSetBdTerms_calls (L : PetscLib σ) (wf0 : PetscWeakForm)
    (ds : PetscDS) (label : DMLabel) (label_val bd f g part : PetscInt)
    (idx0 : PetscInt) (f0 : FnPtr) (idx1 : PetscInt) (f1 : FnPtr)
    (idxg0 : PetscInt) (g0 : FnPtr) (idxg1 : PetscInt) (g1 : FnPtr)
    (idxg2 : PetscInt) (g2 : FnPtr) (idxg3 : PetscInt) (g3 : FnPtr) (s : σ)
    (wf : PetscWeakForm)
    (hok : ∀ e ∈ (UW_PetscDSSetBdTerms L wf0 ds label label_val bd f g part idx0 f0 idx1 f1
      idxg0 g0 idxg1 g1 idxg2 g2 idxg3 g3 s).log, e.status = PETSC_SUCCESS)
    (hwf : (L.PetscDSGetBoundary s ds bd).out = some wf) :
    (UW_PetscDSSetBdTerms L wf0 ds label label_val bd f g part idx0 f0 idx1 f1
      idxg0 g0 idxg1 g1 idxg2 g2 idxg3 g3 s).calls =
      [Call.PetscDSGetBoundary ds bd,
       Call.PetscWeakFormSetIndexBdResidual wf label label_val f part idx0 f0 idx1 f1,
       Call.PetscWeakFormSetIndexBdJacobian wf label label_val f g part
         idxg0 g0 idxg1 g1 idxg2 g2 idxg3 g3,
       Call.PetscWeakFormSetIndexBdJacobianPreconditioner wf label label_val f g part
         idxg0 g0 idxg1 g1 idxg2 g2 idxg3 g3] := by
  revert hok
  unfold UW_PetscDSSetBdTerms PetscCall
  simp only [call_PetscDSGetBoundary, call_PetscWeakFormSetIndexBdResidual,
    call_PetscWeakFormSetIndexBdJacobian, call_PetscWeakFormSetIndexBdJacobianPreconditioner,
    record, recordOut, Run.log, Run.calls, hwf]
  split_ifs with h1 h2 h3 h4 <;> intro hok <;> simp_all

/-- Witness of C5: boundary index 3, residual slots `(0, r0)`, `(1, r1)`, Jacobian slots
`(0, j0)`, `(1, j1)`, `(2, NULL)`, `(3, NULL)`; the callbacks are the addresses
`r0 = 10`, `r1 = 11`, `j0 = 20`, `j1 = 21`. -/
theorem UW_PetscDSSetBdTerms_calls_witness :
    (UW_PetscDSSetBdTerms stubOk 0 5 7 1 3 0 0 0 0 10 1 11 0 20 1 21 2 NULL 3 NULL 0).calls =
      [Call.PetscDSGetBoundary 5 3,
       Call.PetscWeakFormSetIndexBdResidual 42 7 1 0 0 0 10 1 11,
       Call.PetscWeakFormSetIndexBdJacobian 42 7 1 0 0 0 0 20 1 21 2 NULL 3 NULL,
       Call.PetscWeakFormSetIndexBdJacobianPreconditioner 42 7 1 0 0 0 0 20 1 21 2 NULL 3
         NULL] :=
  UW_PetscDSSetBdTerms_calls stubOk 0 5 7 1 3 0 0 0 0 10 1 11 0 20 1 21 2 NULL 3 NULL 0 42
    (by decide) rfl

/-- The calls of `UW_PetscDSSetBdResidual` on a stub whose calls succeed: the fetch for
`bd`, then one residual install whose second slot is `(0, NULL)`, whatever `idx1` and
`f1` the caller supplied. -/
theorem UW_PetscDSSetBdResidual_calls (L : PetscLib σ) (wf0 : PetscWeakForm)
    (ds : PetscDS) (label : DMLabel) (label_val bd f part : PetscInt)
    (idx0 : PetscInt) (f0 : FnPtr) (idx1 : PetscInt) (f1 : FnPtr) (s : σ)
    (wf : PetscWeakForm)
    (hok : ∀ e ∈ (UW_PetscDSSetBdResidual L wf0 ds label label_val bd f part idx0 f0 idx1 f1
      s).log, e.status = PETSC_SUCCESS)
    (hwf : (L.PetscDSGetBoundary s ds bd).out = some wf) :
    (UW_PetscDSSetBdResidual L wf0 ds label label_val bd f part idx0 f0 idx1 f1 s).calls =
      [Call.PetscDSGetBoundary ds bd,
       Call.PetscWeakFormSetIndexBdResidual wf label label_val f part idx0 f0 0 NULL] := by
  revert hok
  unfold UW_PetscDSSetBdResidual PetscCall
  simp only [call_PetscDSGetBoundary, call_PetscWeakFormSetIndexBdResidual,
    record, recordOut, Run.log, Run.calls, hwf]
  split_ifs with h1 h2 <;> intro hok <;> simp_all

/-- C6 (the code at the failing input): called with the second residual slot
`(idx1, bcFunc_f1) = (1, 11)` on a stub whose calls all succeed, `UW_PetscDSSetBdResidual`
fetches the weak form of boundary 3 and installs the second residual slot as `(0, NULL)`
where the caller asked for `(1, 11)`. -/
theorem UW_PetscDSSetBdResidual_drops_second_slot :
    (UW_PetscDSSetBdResidual stubOk 0 5 7 1 3 0 0 0 10 1 11 0).calls =
      [Call.PetscDSGetBoundary 5 3,
       Call.PetscWeakFormSetIndexBdResidual 42 7 1 0 0 0 10 0 NULL] ∧
    (UW_PetscDSSetBdResidual stubOk 0 5 7 1 3 0 0 0 10 1 11 0).calls ≠
      [Call.PetscDSGetBoundary 5 3,
       Call.PetscWeakFormSetIndexBdResidual 42 7 1 0 0 0 10 1 11] := by
  decide

/-- C7: when every call it makes succeeds and the fetch yields `wf`,
`UW_PetscDSSetBdJacobian` makes exactly the two calls `PetscDSGetBoundary(ds, bd)` and one
Jacobian install on `wf` with `(label, label_val, f, g, part, idx0, g0, idx1, g1, idx2,
g2, idx3, g3)`, and no residual or preconditioner install;
`UW_PetscDSSetBdJacobianPreconditioner` makes exactly the fetch and one preconditioner
install with the same arguments, and no residual or Jacobian install. -/
theorem UW_PetscDSSetBdJacobian_and_Preconditioner_calls (L : PetscLib σ)
    (wf0 : PetscWeakForm) (ds : PetscDS) (label : DMLabel)
    (label_val bd f g part : PetscInt)
    (idx0 : PetscInt) (g0 : FnPtr) (idx1 : PetscInt) (g1 : FnPtr)
    (idx2 : PetscInt) (g2 : FnPtr) (idx3 : PetscInt) (g3 : FnPtr) (s : σ)
    (wf : PetscWeakForm)
    (hokJ : ∀ e ∈ (UW_PetscDSSetBdJacobian L wf0 ds label label_val bd f g part idx0 g0
      idx1 g1 idx2 g2 idx3 g3 s).log, e.status = PETSC_SUCCESS)
    (hokP : ∀ e ∈ (UW_PetscDSSetBdJacobianPreconditioner L wf0 ds label label_val bd f g
      part idx0 g0 idx1 g1 idx2 g2 idx3 g3 s).log, e.status = PETSC_SUCCESS)
    (hwf : (L.PetscDSGetBoundary s ds bd).out = some wf) :
    ((UW_PetscDSSetBdJacobian L wf0 ds label label_val bd f g part idx0 g0 idx1 g1
        idx2 g2 idx3 g3 s).calls =
        [Call.PetscDSGetBoundary ds bd,
         Call.PetscWeakFormSetIndexBdJacobian wf label label_val f g part
           idx0 g0 idx1 g1 idx2 g2 idx3 g3] ∧
      ∀ c ∈ (UW_PetscDSSetBdJacobian L wf0 ds label label_val bd f g part idx0 g0 idx1 g1
        idx2 g2 idx3 g3 s).calls,
        c.isResidualInstall = false ∧ c.isPreconditionerInstall = false) ∧
    ((UW_PetscDSSetBdJacobianPreconditioner L wf0 ds label label_val bd f g part idx0 g0
        idx1 g1 idx2 g2 idx3 g3 s).calls =
        [Call.PetscDSGetBoundary ds bd,
         Call.PetscWeakFormSetIndexBdJacobianPreconditioner wf label label_val f g part
           idx0 g0 idx1 g1 idx2 g2 idx3 g3] ∧
      ∀ c ∈ (UW_PetscDSSetBdJacobianPreconditioner L wf0 ds label label_val bd f g part
        idx0 g0 idx1 g1 idx2 g2 idx3 g3 s).calls,
        c.isResidualInstall = false ∧ c.isJacobianInstall = false) := by
  have hJ : (UW_PetscDSSetBdJacobian L wf0 ds label label_val bd f g part idx0 g0 idx1 g1
      idx2 g2 idx3 g3 s).calls =
      [Call.PetscDSGetBoundary ds bd,
       Call.PetscWeakFormSetIndexBdJacobian wf label label_val f g part
         idx0 g0 idx1 g1 idx2 g2 idx3 g3] := by
    revert hokJ
    unfold UW_PetscDSSetBdJacobian PetscCall
    simp only [call_PetscDSGetBoundary, call_PetscWeakFormSetIndexBdJacobian,
      record, recordOut, Run.log, Run.calls, hwf]
    split_ifs with h1 h2 <;> intro hok <;> simp_all
  have hP : (UW_PetscDSSetBdJacobianPreconditioner L wf0 ds label label_val bd f g part
      idx0 g0 idx1 g1 idx2 g2 idx3 g3 s).calls =
      [Call.PetscDSGetBoundary ds bd,
       Call.PetscWeakFormSetIndexBdJacobianPreconditioner wf label label_val f g part
         idx0 g0 idx1 g1 idx2 g2 idx3 g3] := by
    revert hokP
    unfold UW_PetscDSSetBdJacobianPreconditioner PetscCall
    simp only [call_PetscDSGetBoundary, call_PetscWeakFormSetIndexBdJacobianPreconditioner,
      record, recordOut, Run.log, Run.calls, hwf]
    split_ifs with h1 h2 <;> intro hok <;> simp_all
  refine ⟨⟨hJ, ?_⟩, ⟨hP, ?_⟩⟩
  · rw [hJ]
    simp [Call.isResidualInstall, Call.isPreconditionerInstall]
  · rw [hP]
    simp [Call.isResidualInstall, Call.isJacobianInstall]

/-- Witness of C7: boundary index 3 on a stub whose calls all succeed. -/
theorem UW_PetscDSSetBdJacobian_and_Preconditioner_calls_witness :
    (UW_PetscDSSetBdJacobian stubOk 0 5 7 1 3 0 0 0 0 20 1 21 2 NULL 3 NULL 0).calls =
      [Call.PetscDSGetBoundary 5 3,
       Call.PetscWeakFormSetIndexBdJacobian 42 7 1 0 0 0 0 20 1 21 2 NULL 3 NULL] ∧
    (UW_PetscDSSetBdJacobianPreconditioner stubOk 0 5 7 1 3 0 0 0 0 20 1 21 2 NULL 3 NULL
      0).calls =
      [Call.PetscDSGetBoundary 5 3,
       Call.PetscWeakFormSetIndexBdJacobianPreconditioner 42 7 1 0 0 0 0 20 1 21 2 NULL 3
         NULL] :=
  have h := UW_PetscDSSetBdJacobian_and_Preconditioner_calls stubOk 0 5 7 1 3 0 0 0 0 20 1 21
    2 NULL 3 NULL 0 42 (by decide) (by decide) rfl
  ⟨h.1.1, h.2.1⟩

/-! ### Weak-form printers: the calls made -/

/-- C9: when every call it makes succeeds, each printing variant makes exactly two
library calls and the two differ only in the fetch: `UW_PetscDSViewWF(ds)` fetches with
`PetscDSGetWeakForm(ds)`, `UW_PetscDSViewBdWF(ds, bd)` fetches with
`PetscDSGetBoundary(ds, bd)`; both then call `PetscWeakFormView` on the fetched handle
with a `NULL` viewer, and neither makes an install call. -/
theorem UW_PetscDSView_calls (L : PetscLib σ) (wf0 : PetscWeakForm) (ds : PetscDS)
    (bd : PetscInt) (s : σ) (wf wfb : PetscWeakForm)
    (hok : ∀ e ∈ (UW_PetscDSViewWF L wf0 ds s).log, e.status = PETSC_SUCCESS)
    (hokb : ∀ e ∈ (UW_PetscDSViewBdWF L wf0 ds bd s).log, e.status = PETSC_SUCCESS)
    (hwf : (L.PetscDSGetWeakForm s ds).out = some wf)
    (hwfb : (L.PetscDSGetBoundary s ds bd).out = some wfb) :
    ((UW_PetscDSViewWF L wf0 ds s).calls =
        [Call.PetscDSGetWeakForm ds, Call.PetscWeakFormView wf NULL] ∧
      ∀ c ∈ (UW_PetscDSViewWF L wf0 ds s).calls, c.isInstall = false) ∧
    ((UW_PetscDSViewBdWF L wf0 ds bd s).calls =
        [Call.PetscDSGetBoundary ds bd, Call.PetscWeakFormView wfb NULL] ∧
      ∀ c ∈ (UW_PetscDSViewBdWF L wf0 ds bd s).calls, c.isInstall = false) := by
  have h1 : (UW_PetscDSViewWF L wf0 ds s).calls =
      [Call.PetscDSGetWeakForm ds, Call.PetscWeakFormView wf NULL] := by
    revert hok
    unfold UW_PetscDSViewWF PetscCall
    simp only [call_PetscDSGetWeakForm, call_PetscWeakFormView, record, recordOut, Run.log,
      Run.calls, hwf]
    split_ifs with h1 h2 <;> intro hok <;> simp_all
  have h2 : (UW_PetscDSViewBdWF L wf0 ds bd s).calls =
      [Call.PetscDSGetBoundary ds bd, Call.PetscWeakFormView wfb NULL] := by
    revert hokb
    unfold UW_PetscDSViewBdWF PetscCall
    simp only [call_PetscDSGetBoundary, call_PetscWeakFormView, record, recordOut, Run.log,
      Run.calls, hwfb]
    split_ifs with h1 h2 <;> intro hok <;> simp_all
  refine ⟨⟨h1, ?_⟩, ⟨h2, ?_⟩⟩
  · rw [h1]
    simp [Call.isInstall, Call.isResidualInstall, Call.isJacobianInstall,
      Call.isPreconditionerInstall]
  · rw [h2]
    simp [Call.isInstall, Call.isResidualInstall, Call.isJacobianInstall,
      Call.isPreconditionerInstall]

/-- Witness of C9: discretization 5, boundary index 3, on a stub whose calls all
succeed and whose fetches yield the handle 42. -/
theorem UW_PetscDSView_calls_witness :
    (UW_PetscDSViewWF stubOk 0 5 0).calls =
      [Call.PetscDSGetWeakForm 5, Call.PetscWeakFormView 42 NULL] ∧
    (UW_PetscDSViewBdWF stubOk 0 5 3 0).calls =
      [Call.PetscDSGetBoundary 5 3, Call.PetscWeakFormView 42 NULL] :=
  have h := UW_PetscDSView_calls stubOk 0 5 3 0 42 42 (by decide) (by decide) rfl rfl
  ⟨h.1.1, h.2.1⟩

/-! ### Return values of the `PetscCall` chains -/

/-- Each of the six weak-form functions runs as a `PetscCall` chain. -/
theorem chain_of_mem (L : PetscLib σ) (wf0 : PetscWeakForm)
    (ds : PetscDS) (label : DMLabel) (label_val bd f g part : PetscInt)
    (idx0 : PetscInt) (f0 : FnPtr) (idx1 : PetscInt) (f1 : FnPtr)
    (idxg0 : PetscInt) (g0 : FnPtr) (idxg1 : PetscInt) (g1 : FnPtr)
    (idxg2 : PetscInt) (g2 : FnPtr) (idxg3 : PetscInt) (g3 : FnPtr) (s : σ)
    (r : Run σ)
    (hr : r ∈ [UW_PetscDSSetBdTerms L wf0 ds label label_val bd f g part idx0 f0 idx1 f1
        idxg0 g0 idxg1 g1 idxg2 g2 idxg3 g3 s,
      UW_PetscDSSetBdResidual L wf0 ds label label_val bd f part idx0 f0 idx1 f1 s,
      UW_PetscDSSetBdJacobian L wf0 ds label label_val bd f g part
        idxg0 g0 idxg1 g1 idxg2 g2 idxg3 g3 s,
      UW_PetscDSSetBdJacobianPreconditioner L wf0 ds label label_val bd f g part
        idxg0 g0 idxg1 g1 idxg2 g2 idxg3 g3 s,
      UW_PetscDSViewWF L wf0 ds s,
      UW_PetscDSViewBdWF L wf0 ds bd s]) : Chain r := by
  simp only [List.mem_cons, List.mem_singleton, List.not_mem_nil, or_false] at hr
  rcases hr with rfl | rfl | rfl | rfl | rfl | rfl
  · exact chain_UW_PetscDSSetBdTerms ..
  · exact chain_UW_PetscDSSetBdResidual ..
  · exact chain_UW_PetscDSSetBdJacobian ..
  · exact chain_UW_PetscDSSetBdJacobianPreconditioner ..
  · exact chain_UW_PetscDSViewWF ..
  · exact chain_UW_PetscDSViewBdWF ..

/-- C3 (refuted as stated): none of the six functions returns one fixed constant on every
invocation.  On the stub all of whose calls succeed each returns 1; on the stub whose
first call, the weak-form fetch, answers status 77 each returns 77. -/
theorem fixed_constant_refuted :
    (¬ ∃ c : PetscErrorCode, ∀ L : PetscLib Nat,
      (UW_PetscDSSetBdTerms L 0 5 7 1 3 0 0 0 0 10 1 11 0 20 1 21 2 NULL 3 NULL 0).ret = c) ∧
    (¬ ∃ c : PetscErrorCode, ∀ L : PetscLib Nat,
      (UW_PetscDSSetBdResidual L 0 5 7 1 3 0 0 0 10 1 11 0).ret = c) ∧
    (¬ ∃ c : PetscErrorCode, ∀ L : PetscLib Nat,
      (UW_PetscDSSetBdJacobian L 0 5 7 1 3 0 0 0 0 20 1 21 2 NULL 3 NULL 0).ret = c) ∧
    (¬ ∃ c : PetscErrorCode, ∀ L : PetscLib Nat,
      (UW_PetscDSSetBdJacobianPreconditioner L 0 5 7 1 3 0 0 0 0 20 1 21 2 NULL 3 NULL
        0).ret = c) ∧
    (¬ ∃ c : PetscErrorCode, ∀ L : PetscLib Nat, (UW_PetscDSViewWF L 0 5 0).ret = c) ∧
    (¬ ∃ c : PetscErrorCode, ∀ L : PetscLib Nat, (UW_PetscDSViewBdWF L 0 5 3 0).ret = c) := by
  refine ⟨?_, ?_, ?_, ?_, ?_, ?_⟩ <;> rintro ⟨c, h⟩ <;>
    exact absurd ((h stubOk).trans (h (stub 0 77 3)).symm) (by decide)

/-- C3 (amended): each of the six functions returns the fixed constant 1 on every
invocation in which all the library calls it made succeeded; when a library call it made
answered a failure status, the function returns that status, so the return value differs
from the constant 1 of the success path exactly when the failure status is not 1 (a
failure with status 1 returns the same value as success). -/
theorem returns_one_or_failure_status (L : PetscLib σ) (wf0 : PetscWeakForm)
    (ds : PetscDS) (label : DMLabel) (label_val bd f g part : PetscInt)
    (idx0 : PetscInt) (f0 : FnPtr) (idx1 : PetscInt) (f1 : FnPtr)
    (idxg0 : PetscInt) (g0 : FnPtr) (idxg1 : PetscInt) (g1 : FnPtr)
    (idxg2 : PetscInt) (g2 : FnPtr) (idxg3 : PetscInt) (g3 : FnPtr) (s : σ) :
    ∀ r ∈ [UW_PetscDSSetBdTerms L wf0 ds label label_val bd f g part idx0 f0 idx1 f1
        idxg0 g0 idxg1 g1 idxg2 g2 idxg3 g3 s,
      UW_PetscDSSetBdResidual L wf0 ds label label_val bd f part idx0 f0 idx1 f1 s,
      UW_PetscDSSetBdJacobian L wf0 ds label label_val bd f g part
        idxg0 g0 idxg1 g1 idxg2 g2 idxg3 g3 s,
      UW_PetscDSSetBdJacobianPreconditioner L wf0 ds label label_val bd f g part
        idxg0 g0 idxg1 g1 idxg2 g2 idxg3 g3 s,
      UW_PetscDSViewWF L wf0 ds s,
      UW_PetscDSViewBdWF L wf0 ds bd s],
      ((∀ e ∈ r.log, e.status = PETSC_SUCCESS) → r.ret = 1) ∧
      (∀ e ∈ r.log, e.status ≠ PETSC_SUCCESS → r.ret = e.status) ∧
      (∀ e ∈ r.log, e.status ≠ PETSC_SUCCESS → (r.ret ≠ 1 ↔ e.status ≠ 1)) := by
  intro r hr
  have hc := chain_of_mem L wf0 ds label label_val bd f g part idx0 f0 idx1 f1
    idxg0 g0 idxg1 g1 idxg2 g2 idxg3 g3 s r hr
  refine ⟨hc.ret_of_success, hc.ret_of_failure, fun e he hne => ?_⟩
  rw [hc.ret_of_failure e he hne]

/-- Witness of C3 (amended): on the stub whose calls all succeed `UW_PetscDSSetBdTerms`
returns 1; when its Jacobian install (its third call) answers status 77 it returns 77,
which differs from 1; when the fetch of `UW_PetscDSViewBdWF` answers the failure status 1
the function returns 1, the value of the success path. -/
theorem returns_one_or_failure_status_witness :
    (UW_PetscDSSetBdTerms stubOk 0 5 7 1 3 0 0 0 0 10 1 11 0 20 1 21 2 NULL 3 NULL 0).ret = 1 ∧
    (UW_PetscDSSetBdTerms (stub 2 77 3) 0 5 7 1 3 0 0 0 0 10 1 11 0 20 1 21 2 NULL 3 NULL
      0).ret = 77 ∧
    (UW_PetscDSSetBdTerms (stub 2 77 3) 0 5 7 1 3 0 0 0 0 10 1 11 0 20 1 21 2 NULL 3 NULL
      0).ret ≠ 1 ∧
    (UW_PetscDSViewBdWF (stub 0 1 3) 0 5 3 0).ret = 1 :=
  ⟨(returns_one_or_failure_status stubOk 0 5 7 1 3 0 0 0 0 10 1 11 0 20 1 21 2 NULL 3 NULL 0
      _ (List.mem_cons_self _ _)).1 (by decide),
   (returns_one_or_failure_status (stub 2 77 3) 0 5 7 1 3 0 0 0 0 10 1 11 0 20 1 21 2 NULL 3
      NULL 0 _ (List.mem_cons_self _ _)).2.1
      ⟨Call.PetscWeakFormSetIndexBdJacobian 42 7 1 0 0 0 0 20 1 21 2 NULL 3 NULL, 77⟩
      (by decide) (by decide),
   ((returns_one_or_failure_status (stub 2 77 3) 0 5 7 1 3 0 0 0 0 10 1 11 0 20 1 21 2 NULL 3
      NULL 0 _ (List.mem_cons_self _ _)).2.2
      ⟨Call.PetscWeakFormSetIndexBdJacobian 42 7 1 0 0 0 0 20 1 21 2 NULL 3 NULL, 77⟩
      (by decide) (by decide)).mpr (by decide),
   (returns_one_or_failure_status (stub 0 1 3) 0 5 7 1 3 0 0 0 0 10 1 11 0 20 1 21 2 NULL 3
      NULL 0 (UW_PetscDSViewBdWF (stub 0 1 3) 0 5 3 0) (by simp)).2.1
      ⟨Call.PetscDSGetBoundary 5 3, 1⟩ (by decide) (by decide)⟩

/-- C4: when every library call it made reported success (status 0), each of the six
functions returns the literal 1, which is not the success status and differs from the
status of every call it forwarded. -/
theorem returns_literal_one_on_success (L : PetscLib σ) (wf0 : PetscWeakForm)
    (ds : PetscDS) (label : DMLabel) (label_val bd f g part : PetscInt)
    (idx0 : PetscInt) (f0 : FnPtr) (idx1 : PetscInt) (f1 : FnPtr)
    (idxg0 : PetscInt) (g0 : FnPtr) (idxg1 : PetscInt) (g1 : FnPtr)
    (idxg2 : PetscInt) (g2 : FnPtr) (idxg3 : PetscInt) (g3 : FnPtr) (s : σ) :
    ∀ r ∈ [UW_PetscDSSetBdTerms L wf0 ds label label_val bd f g part idx0 f0 idx1 f1
        idxg0 g0 idxg1 g1 idxg2 g2 idxg3 g3 s,
      UW_PetscDSSetBdResidual L wf0 ds label label_val bd f part idx0 f0 idx1 f1 s,
      UW_PetscDSSetBdJacobian L wf0 ds label label_val bd f g part
        idxg0 g0 idxg1 g1 idxg2 g2 idxg3 g3 s,
      UW_PetscDSSetBdJacobianPreconditioner L wf0 ds label label_val bd f g part
        idxg0 g0 idxg1 g1 idxg2 g2 idxg3 g3 s,
      UW_PetscDSViewWF L wf0 ds s,
      UW_PetscDSViewBdWF L wf0 ds bd s],
      (∀ e ∈ r.log, e.status = PETSC_SUCCESS) →
        r.ret = 1 ∧ r.ret ≠ PETSC_SUCCESS ∧ ∀ e ∈ r.log, r.ret ≠ e.status := by
  intro r hr hok
  have h1 : r.ret = 1 := (chain_of_mem L wf0 ds label label_val bd f g part idx0 f0 idx1 f1
    idxg0 g0 idxg1 g1 idxg2 g2 idxg3 g3 s r hr).ret_of_success hok
  refine ⟨h1, by rw [h1]; decide, fun e he => ?_⟩
  rw [h1, hok e he]
  decide

/-- Witness of C4: the whole-discretization printer on a stub whose calls all succeed. -/
theorem returns_literal_one_on_success_witness :
    (∀ e ∈ (UW_PetscDSViewWF stubOk 0 5 0).log, e.status = PETSC_SUCCESS) ∧
    (UW_PetscDSViewWF stubOk 0 5 0).ret = 1 ∧
    (UW_PetscDSViewWF stubOk 0 5 0).ret ≠ PETSC_SUCCESS :=
  have h := returns_literal_one_on_success stubOk 0 5 7 1 3 0 0 0 0 10 1 11 0 20 1 21 2 NULL 3
    NULL 0 (UW_PetscDSViewWF stubOk 0 5 0) (by simp) (by decide)
  ⟨by decide, h.1, h.2.1⟩

/-! ### Short-circuit on failure -/

/-- C10: in each of the six functions a forwarded call that answers a non-zero status is
the last library call made, and its status is the return value.  In particular, when the
weak-form fetch fails it is the only call made (no install or view call follows), and in
`UW_PetscDSSetBdTerms` a failed residual install is followed by neither the Jacobian nor
the Jacobian-preconditioner install. -/
theorem PetscCall_short_circuit (L : PetscLib σ) (wf0 : PetscWeakForm)
    (ds : PetscDS) (label : DMLabel) (label_val bd f g part : PetscInt)
    (idx0 : PetscInt) (f0 : FnPtr) (idx1 : PetscInt) (f1 : FnPtr)
    (idxg0 : PetscInt) (g0 : FnPtr) (idxg1 : PetscInt) (g1 : FnPtr)
    (idxg2 : PetscInt) (g2 : FnPtr) (idxg3 : PetscInt) (g3 : FnPtr) (s : σ) :
    (∀ r ∈ [UW_PetscDSSetBdTerms L wf0 ds label label_val bd f g part idx0 f0 idx1 f1
        idxg0 g0 idxg1 g1 idxg2 g2 idxg3 g3 s,
      UW_PetscDSSetBdResidual L wf0 ds label label_val bd f part idx0 f0 idx1 f1 s,
      UW_PetscDSSetBdJacobian L wf0 ds label label_val bd f g part
        idxg0 g0 idxg1 g1 idxg2 g2 idxg3 g3 s,
      UW_PetscDSSetBdJacobianPreconditioner L wf0 ds label label_val bd f g part
        idxg0 g0 idxg1 g1 idxg2 g2 idxg3 g3 s,
      UW_PetscDSViewWF L wf0 ds s,
      UW_PetscDSViewBdWF L wf0 ds bd s],
      ∀ (i : Nat) (e : LogEntry), r.log[i]? = some e → e.status ≠ PETSC_SUCCESS →
        r.log.length = i + 1 ∧ r.ret = e.status) ∧
    (∀ r ∈ [UW_PetscDSSetBdTerms L wf0 ds label label_val bd f g part idx0 f0 idx1 f1
        idxg0 g0 idxg1 g1 idxg2 g2 idxg3 g3 s,
      UW_PetscDSSetBdResidual L wf0 ds label label_val bd f part idx0 f0 idx1 f1 s,
      UW_PetscDSSetBdJacobian L wf0 ds label label_val bd f g part
        idxg0 g0 idxg1 g1 idxg2 g2 idxg3 g3 s,
      UW_PetscDSSetBdJacobianPreconditioner L wf0 ds label label_val bd f g part
        idxg0 g0 idxg1 g1 idxg2 g2 idxg3 g3 s,
      UW_PetscDSViewBdWF L wf0 ds bd s],
      (L.PetscDSGetBoundary s ds bd).status ≠ PETSC_SUCCESS →
        r.calls = [Call.PetscDSGetBoundary ds bd] ∧
        r.ret = (L.PetscDSGetBoundary s ds bd).status) ∧
    ((L.PetscDSGetWeakForm s ds).status ≠ PETSC_SUCCESS →
      (UW_PetscDSViewWF L wf0 ds s).calls = [Call.PetscDSGetWeakForm ds] ∧
      (UW_PetscDSViewWF L wf0 ds s).ret = (L.PetscDSGetWeakForm s ds).status) ∧
    ((∃ e ∈ (UW_PetscDSSetBdTerms L wf0 ds label label_val bd f g part idx0 f0 idx1 f1
        idxg0 g0 idxg1 g1 idxg2 g2 idxg3 g3 s).log, e.call.isResidualInstall = true ∧ e.status ≠ PETSC_SUCCESS) →
      ∀ c ∈ (UW_PetscDSSetBdTerms L wf0 ds label label_val bd f g part idx0 f0 idx1 f1
        idxg0 g0 idxg1 g1 idxg2 g2 idxg3 g3 s).calls, c.isJacobianInstall = false ∧ c.isPreconditionerInstall = false) := by
  refine ⟨?_, ?_, ?_, ?_⟩
  · intro r hr i e hi hne
    exact (chain_of_mem L wf0 ds label label_val bd f g part idx0 f0 idx1 f1
      idxg0 g0 idxg1 g1 idxg2 g2 idxg3 g3 s r hr).failure_is_last i e hi hne
  · intro r hr hne
    simp only [List.mem_cons, List.mem_singleton, List.not_mem_nil, or_false] at hr
    rcases hr with rfl | rfl | rfl | rfl | rfl <;>
      simp [UW_PetscDSSetBdTerms, UW_PetscDSSetBdResidual, UW_PetscDSSetBdJacobian,
        UW_PetscDSSetBdJacobianPreconditioner, UW_PetscDSViewBdWF, PetscCall,
        call_PetscDSGetBoundary, recordOut, Run.calls, hne]
  · intro hne
    simp [UW_PetscDSViewWF, PetscCall, call_PetscDSGetWeakForm, recordOut, Run.calls, hne]
  · unfold UW_PetscDSSetBdTerms PetscCall
    simp only [call_PetscDSGetBoundary, call_PetscWeakFormSetIndexBdResidual,
      call_PetscWeakFormSetIndexBdJacobian,
      call_PetscWeakFormSetIndexBdJacobianPreconditioner, record, recordOut, Run.log,
      Run.calls]
    split_ifs with h1 h2 h3 h4 <;>
      simp_all [Call.isResidualInstall, Call.isJacobianInstall,
        Call.isPreconditionerInstall]

/-- Witness of C10: the residual install of `UW_PetscDSSetBdTerms` (its second call)
answers status 77; the function stops after two calls and returns 77. -/
theorem PetscCall_short_circuit_witness :
    (UW_PetscDSSetBdTerms (stub 1 77 3) 0 5 7 1 3 0 0 0 0 10 1 11 0 20 1 21 2 NULL 3 NULL
      0).log.length = 2 ∧
    (UW_PetscDSSetBdTerms (stub 1 77 3) 0 5 7 1 3 0 0 0 0 10 1 11 0 20 1 21 2 NULL 3 NULL
      0).ret = 77 :=
  (PetscCall_short_circuit (stub 1 77 3) 0 5 7 1 3 0 0 0 0 10 1 11 0 20 1 21 2 NULL 3 NULL
    0).1 _ (List.mem_cons_self _ _) 1
    ⟨Call.PetscWeakFormSetIndexBdResidual 42 7 1 0 0 0 10 1 11, 77⟩ (by decide) (by decide)

end theorems

end PetscCompat
